import Mathlib

/-!
Shallow embedding of the yop-cloud-sdk client (`src/yop_cloud_sdk/sdk.py`).

Files, listings and header dictionaries are modelled as insertion-ordered
association lists; the network and the external `tar` subprocess are modelled
as oracles (`UploadWorld`, `DownloadWorld`) supplying the statuses, response
bodies and exit codes the outside world would produce, while every request the
client issues is recorded in a trace of `NetEvent`s.
-/

namespace YopSdk

/-- Python string formatting of a bool (`str(b).lower()`). -/
def pyBool (b : Bool) : String := if b then "true" else "false"

/-- Python dict with string keys, as an insertion-ordered association list.
`dictInsert d k v` models `d[k] = v`: update in place when the key is
present, append otherwise. -/
def dictInsert (d : List (String × String)) (k v : String) : List (String × String) :=
  if d.any (fun p => p.1 == k) then
    d.map (fun p => if p.1 == k then (k, v) else p)
  else d ++ [(k, v)]

/-- Split a character list at '/' separators, like Python's `split('/')`
(the accumulator holds the current segment reversed). -/
def splitSlash : List Char → List Char → List (List Char)
  | [], cur => [cur.reverse]
  | c :: rest, cur =>
    if c = '/' then cur.reverse :: splitSlash rest []
    else splitSlash rest (c :: cur)

/-- Join character-list segments with '/' separators. -/
def joinSlash : List (List Char) → List Char
  | [] => []
  | [x] => x
  | x :: y :: xs => x ++ '/' :: joinSlash (y :: xs)

/-- Model of `os.path.split`: split at the last slash; the head keeps a root
slash but otherwise loses trailing slashes, the tail is what follows the last
slash (`("", p)` when `p` has no slash). -/
def os_path_split (p : String) : String × String :=
  let parts := splitSlash p.toList []
  if parts.length == 1 then ("", p)
  else
    let tail := parts.getLastD []
    let head1 := joinSlash parts.dropLast ++ ['/']
    let head := if head1.all (fun c => c == '/') then head1
                else (head1.reverse.dropWhile (fun c => c == '/')).reverse
    (String.mk head, String.mk tail)

/-- Model of `os.path.basename`. -/
def basename (p : String) : String := (os_path_split p).2

/-- Model of the two-argument `os.path.join` uses in the source. -/
def os_path_join (a b : String) : String :=
  if b.toList.head? = some '/' then b
  else if a.toList = [] then b
  else if a.toList.getLast? = some '/' then String.mk (a.toList ++ b.toList)
  else String.mk (a.toList ++ '/' :: b.toList)

/-- A node of the local filesystem: a regular file with its byte content, or a
directory. -/
inductive FsNode where
  | file (content : List Nat)
  | dir
  deriving Repr, DecidableEq

/-- Local filesystem: association list from absolute-or-relative path strings
to nodes. -/
abbrev Fs := List (String × FsNode)

/-- Look a path up in the filesystem. -/
def Fs.lookup (fs : Fs) (p : String) : Option FsNode :=
  (List.find? (fun e => e.1 == p) fs).map (fun e => e.2)

/-- Model of `os.path.exists`. -/
def Fs.pathExists (fs : Fs) (p : String) : Bool := (Fs.lookup fs p).isSome

/-- Model of `os.path.isdir`. -/
def Fs.isdir (fs : Fs) (p : String) : Bool :=
  match Fs.lookup fs p with
  | some FsNode.dir => true
  | _ => false

/-- Byte content of the file at `p` (empty when absent or a directory). -/
def Fs.readFile (fs : Fs) (p : String) : List Nat :=
  match Fs.lookup fs p with
  | some (FsNode.file c) => c
  | _ => []

/-- Model of `os.path.getsize` for the regular-file paths the client reads. -/
def Fs.getsize (fs : Fs) (p : String) : Nat := (Fs.readFile fs p).length

/-- Create or overwrite the node at `p`. -/
def Fs.insert (fs : Fs) (p : String) (n : FsNode) : Fs :=
  if fs.any (fun e => e.1 == p) then
    fs.map (fun e => if e.1 == p then (p, n) else e)
  else fs ++ [(p, n)]

/-- Model of `os.remove`. -/
def Fs.remove (fs : Fs) (p : String) : Fs :=
  fs.filter (fun e => !(e.1 == p))

/-- Every slash-delimited ancestor path of `p`, outermost first. -/
def ancestorPaths (p : String) : List String :=
  let parts := splitSlash p.toList []
  (List.range parts.length).map (fun i => String.mk (joinSlash (parts.take (i + 1))))

/-- Model of `os.makedirs`: create a directory at every missing ancestor of
`p` and at `p` itself. -/
def Fs.makedirs (fs : Fs) (p : String) : Fs :=
  (ancestorPaths p).foldl
    (fun acc q => if Fs.pathExists acc q then acc else Fs.insert acc q FsNode.dir) fs

/-- Error taxonomy of the spec, one constructor per raise site of the source:
`notFoundError` for the local existence check in `upload` and for 404 mappings
in `_do_list_files`, `_is_file_on_server_dir`, `_do_download` and
`_do_delete`; `archiveError` for a failing `tar` subprocess; `uploadError`
(status and server text) for the two raises in `_do_upload`; `downloadError`,
`listError` and `deleteError` for the remaining non-success statuses. -/
inductive SdkError where
  | notFoundError (msg : String)
  | archiveError (msg : String)
  | uploadError (status : Nat) (msg : String)
  | downloadError (msg : String)
  | listError (msg : String)
  | deleteError (msg : String)
  deriving Repr, DecidableEq

/-- One entry of a listing response body (only the `name` field is consulted
by the classifier). -/
structure ListEntry where
  name : String
  deriving Repr, DecidableEq

/-- An HTTP response to a listing request: status code, body text, and the
decoded JSON list of entries. -/
structure LsResponse where
  status : Nat
  text : String
  listing : List ListEntry
  deriving Repr, DecidableEq

/-- A network request issued by the client, as recorded in the trace. URL
strings are omitted: they carry the path and the `force` flag, which the
events record directly. -/
inductive NetEvent where
  | preflight (force : Bool) (headers : List (String × String))
  | bodySend (force : Bool) (headers : List (String × String)) (chunks : List (List Nat))
  | lsReq (list_path : String) (verbose : Bool) (headers : List (String × String))
  | getReq (src_file_path : String) (headers : List (String × String))
  | deleteReq (file_path : String) (headers : List (String × String))
  deriving Repr, DecidableEq

/-- Whether an event is the body-streaming upload request. -/
def NetEvent.isBodySend : NetEvent → Bool
  | NetEvent.bodySend _ _ _ => true
  | _ => false

/-- Header dictionary carried by an event. -/
def NetEvent.headersOf : NetEvent → List (String × String)
  | NetEvent.preflight _ h => h
  | NetEvent.bodySend _ h _ => h
  | NetEvent.lsReq _ _ h => h
  | NetEvent.getReq _ h => h
  | NetEvent.deleteReq _ h => h

/-- Chunk size constant of the source (`64 * 1024`). -/
def DOWNLOAD_CHUNK_SIZE : Nat := 64 * 1024

/-- Model of `generate_chunks_from_file`: repeatedly `read(chunkSize)` from the
file content until a read returns empty, yielding each chunk; the generator
also reports `len(chunk)` to the progress bar for each yielded chunk, which the
callers recover as `(generate_chunks_from_file ...).map List.length`. -/
def generate_chunks_from_file (chunkSize : Nat) (content : List Nat) : List (List Nat) :=
  if h : content.take chunkSize = [] then []
  else content.take chunkSize :: generate_chunks_from_file chunkSize (content.drop chunkSize)
termination_by content.length
decreasing_by
  rcases List.take_eq_nil_iff.not.mp h with hk
  simp only [not_or] at hk
  simp only [List.length_drop]
  have h1 : 0 < content.length := List.length_pos.mpr hk.2
  have h2 : 0 < chunkSize := Nat.pos_of_ne_zero hk.1
  omega

/-- Constructor-time headers of `YOPStorage.__init__`: exactly the bearer
Authorization entry. -/
def initHeaders (token : String) : List (String × String) :=
  [("Authorization", "Bearer " ++ token)]

/-- Oracle for one `upload` call: the exit status of the `tar` subprocess and
the bytes it wrote to the archive path before exiting (`tar -c -f` creates the
output file on startup, so a failing run can leave a partial file; `none`
models a run that wrote nothing), and the statuses and body texts of the
preflight and body-phase responses. -/
structure UploadWorld where
  tarExit : Nat
  tarWritten : Option (List Nat)
  preflightStatus : Nat
  preflightText : String
  bodyStatus : Nat
  bodyText : String
  deriving Repr, DecidableEq

/-- Result of `_do_upload`: the returned-or-raised outcome, the requests
issued, and the progress-bar increments (the generator is consumed, and hence
the progress bar updated, only when the body request is issued). -/
structure DoUploadOut where
  result : Except SdkError Unit
  trace : List NetEvent
  pbar : List Nat

/-- Header construction of `_do_upload`: a copy of the stored dict with
Content-Disposition, X-File-Size and, for directories, X-Is-Archive added. -/
def uploadHeaders (baseHeaders : List (String × String)) (dst_file_path : String)
    (file_size : Nat) (isdir : Bool) : List (String × String) :=
  let headers1 := dictInsert
      (dictInsert baseHeaders "Content-Disposition"
        ("attachment; filename=\"" ++ dst_file_path ++ "\""))
      "X-File-Size" (toString file_size)
  if isdir then dictInsert headers1 "X-Is-Archive" "true" else headers1

/-- Model of `_do_upload`: build the headers via `uploadHeaders`, issue the
headers-only preflight with X-Expect: 100-continue, raise on a preflight
status of 400 or above, otherwise stream the chunk generator as the body and
raise unless the body-phase status is 200. -/
def do_upload (baseHeaders : List (String × String)) (chunks : List (List Nat))
    (dst_file_path : String) (isdir : Bool) (file_size : Nat) (force : Bool)
    (w : UploadWorld) : DoUploadOut :=
  let headers := uploadHeaders baseHeaders dst_file_path file_size isdir
  let preEvent := NetEvent.preflight force (dictInsert headers "X-Expect" "100-continue")
  if 400 ≤ w.preflightStatus then
    { result := Except.error (SdkError.uploadError w.preflightStatus w.preflightText),
      trace := [preEvent], pbar := [] }
  else
    { result :=
        if w.bodyStatus ≠ 200 then
          Except.error (SdkError.uploadError w.bodyStatus w.bodyText)
        else Except.ok (),
      trace := [preEvent, NetEvent.bodySend force headers chunks],
      pbar := chunks.map List.length }

/-- Temporary archive path derived from a directory path in `upload` (and from
the destination path in `download`): a dot-prefixed `.tar.gz`-suffixed sibling
of the base name. -/
def archTempPath (dir_path : String) : String :=
  let sp := os_path_split dir_path
  os_path_join sp.1 ("." ++ sp.2 ++ ".tar.gz")

/-- Result of one `upload` call: outcome, final filesystem, request trace and
progress-bar increments. -/
structure UploadOutcome where
  result : Except SdkError Unit
  fs : Fs
  trace : List NetEvent
  pbar : List Nat

/-- Model of `YOPStorage.upload`: raise when the source is missing; for a
directory source run `tar` into the dot-prefixed sibling archive (raising on a
non-zero exit, with whatever `tar` wrote left in place), then stream the
archive (or the plain file) through `_do_upload`, and for the directory case
remove the temporary archive in a `finally` on every exit of the transfer. -/
def upload (baseHeaders : List (String × String)) (fs : Fs) (w : UploadWorld)
    (src_file_path dst_file_path : String) (force : Bool) : UploadOutcome :=
  if ¬ Fs.pathExists fs src_file_path then
    { result := Except.error
        (SdkError.notFoundError ("File " ++ src_file_path ++ " not found")),
      fs := fs, trace := [], pbar := [] }
  else
    let isdir := Fs.isdir fs src_file_path
    if isdir then
      let archPath := archTempPath src_file_path
      let fs1 := match w.tarWritten with
        | some bytes => Fs.insert fs archPath (FsNode.file bytes)
        | none => fs
      if w.tarExit ≠ 0 then
        { result := Except.error (SdkError.archiveError "Failed to archive folder"),
          fs := fs1, trace := [], pbar := [] }
      else
        let out := do_upload baseHeaders
          (generate_chunks_from_file DOWNLOAD_CHUNK_SIZE (Fs.readFile fs1 archPath))
          dst_file_path true (Fs.getsize fs1 archPath) force w
        { result := out.result, fs := Fs.remove fs1 archPath,
          trace := out.trace, pbar := out.pbar }
    else
      let out := do_upload baseHeaders
        (generate_chunks_from_file DOWNLOAD_CHUNK_SIZE (Fs.readFile fs src_file_path))
        dst_file_path false (Fs.getsize fs src_file_path) force w
      { result := out.result, fs := fs, trace := out.trace, pbar := out.pbar }

/-- Model of `_do_list_files`: issue the listing GET with the stored headers,
then map 404 to not-found and any other non-200 status to a generic failure,
returning the response otherwise. -/
def do_list_files (baseHeaders : List (String × String)) (list_path : String)
    (verbose : Bool) (resp : LsResponse) :
    Except SdkError LsResponse × List NetEvent :=
  let ev := [NetEvent.lsReq list_path verbose baseHeaders]
  if resp.status = 404 then
    (Except.error (SdkError.notFoundError
       ("File \"" ++ list_path ++ "\" not found on server")), ev)
  else if resp.status ≠ 200 then
    (Except.error (SdkError.listError
       ("Failed to browse files on server: " ++ resp.text)), ev)
  else (Except.ok resp, ev)

/-- Model of `_is_file_on_server_dir`: list the path (the listing helper
already raises on 404 and other non-200 statuses, so the re-checks here are
dead code, kept for fidelity), then return `true` (directory) unless the
listing holds exactly one entry whose name equals the base name of the path
(the indexing `response.json()[0]` only happens under the short-circuited
length check, modelled with `head?`). -/
def is_file_on_server_dir (baseHeaders : List (String × String))
    (src_file_path : String) (resp : LsResponse) :
    Except SdkError Bool × List NetEvent :=
  let r := do_list_files baseHeaders src_file_path false resp
  match r.1 with
  | Except.error e => (Except.error e, r.2)
  | Except.ok response =>
    if response.status = 404 then
      (Except.error (SdkError.notFoundError
         ("File \"" ++ src_file_path ++ "\" not found on server")), r.2)
    else if response.status ≠ 200 then
      (Except.error (SdkError.listError
         ("Failed to browse file on server: " ++ response.text)), r.2)
    else
      (Except.ok (!(response.listing.length == 1 &&
          (match response.listing.head? with
           | some e0 => basename src_file_path == e0.name
           | none => false))), r.2)

/-- Oracle for one `download` call: the listing response used by the
classifier, the status, text, Content-Length and body of the download GET, the
exit status of the `tar -x` subprocess and the entries it extracted into the
destination before exiting. -/
structure DownloadWorld where
  ls : LsResponse
  dlStatus : Nat
  dlText : String
  dlContentLength : Nat
  dlBody : List Nat
  tarExit : Nat
  extracted : List (String × FsNode)
  deriving Repr, DecidableEq

/-- Result of `_do_download`: outcome, filesystem after the write loop, the
request issued, and the client's stored header dict after the call. -/
structure DoDownloadOut where
  result : Except SdkError Unit
  fs : Fs
  trace : List NetEvent
  storedHeaders : List (String × String)

/-- Model of `_do_download`. NOTE: in the source, `headers = self._headers`
binds the stored dict itself, so `headers['X-Is-Archive'] = 'true'` mutates the
client's stored headers; the model returns the stored dict's new value as
`storedHeaders`. On a 200 the 64 KiB read/write loop writes the whole response
body to the destination file. -/
def do_download (storedHeaders : List (String × String))
    (src_file_path dst_file_path : String) (isdir : Bool) (w : DownloadWorld)
    (fs : Fs) : DoDownloadOut :=
  let headers := if isdir then dictInsert storedHeaders "X-Is-Archive" "true"
                 else storedHeaders
  let ev := [NetEvent.getReq src_file_path headers]
  if w.dlStatus = 404 then
    { result := Except.error (SdkError.notFoundError
        ("File \"" ++ src_file_path ++ "\" not found on server")),
      fs := fs, trace := ev, storedHeaders := headers }
  else if w.dlStatus ≠ 200 then
    { result := Except.error (SdkError.downloadError
        ("Failed to download file: " ++ w.dlText)),
      fs := fs, trace := ev, storedHeaders := headers }
  else
    { result := Except.ok (),
      fs := Fs.insert fs dst_file_path (FsNode.file w.dlBody),
      trace := ev, storedHeaders := headers }

/-- Result of one `download` call: outcome, final filesystem, request trace
and the client's stored header dict after the call. -/
structure DownloadOutcome where
  result : Except SdkError Unit
  fs : Fs
  trace : List NetEvent
  storedHeaders : List (String × String)

/-- Model of `YOPStorage.download`: classify the remote path via the listing;
for a directory redirect the destination to the dot-prefixed sibling archive;
create missing destination directories; stream the body via `_do_download`;
for a directory then run `tar -x` into the destination (raising on a non-zero
exit) and remove the temporary archive in a `finally`. -/
def download (storedHeaders : List (String × String)) (fs : Fs)
    (w : DownloadWorld) (src_file_path dst_file_path : String) : DownloadOutcome :=
  let sp := os_path_split dst_file_path
  let cls := is_file_on_server_dir storedHeaders src_file_path w.ls
  match cls.1 with
  | Except.error e =>
    { result := Except.error e, fs := fs, trace := cls.2,
      storedHeaders := storedHeaders }
  | Except.ok isdir =>
    let dst_dir_path := if isdir then dst_file_path else sp.1
    let dstPath := if isdir then archTempPath dst_file_path else dst_file_path
    let fs1 := if dst_dir_path ≠ "" ∧ ¬ Fs.pathExists fs dst_dir_path then
                 Fs.makedirs fs dst_dir_path
               else fs
    let dl := do_download storedHeaders src_file_path dstPath isdir w fs1
    match dl.result with
    | Except.error e =>
      { result := Except.error e, fs := dl.fs, trace := cls.2 ++ dl.trace,
        storedHeaders := dl.storedHeaders }
    | Except.ok _ =>
      if isdir then
        let fsx := w.extracted.foldl (fun acc e => Fs.insert acc e.1 e.2) dl.fs
        { result :=
            if w.tarExit ≠ 0 then
              Except.error (SdkError.archiveError "Failed to unzip folder")
            else Except.ok (),
          fs := Fs.remove fsx dstPath, trace := cls.2 ++ dl.trace,
          storedHeaders := dl.storedHeaders }
      else
        { result := Except.ok (), fs := dl.fs, trace := cls.2 ++ dl.trace,
          storedHeaders := dl.storedHeaders }

/-! Helper lemmas about the filesystem and dictionary models. -/

/-- Removing a path makes it absent. -/
theorem pathExists_remove (fs : Fs) (p : String) :
    Fs.pathExists (Fs.remove fs p) p = false := by
  have hnone : List.find? (fun e => e.1 == p) (Fs.remove fs p) = none := by
    rw [List.find?_eq_none]
    intro x hx
    have hq := (List.mem_filter.mp hx).2
    simp only [Bool.not_eq_true'] at hq
    simp [hq]
  simp [Fs.pathExists, Fs.lookup, hnone]

/-- Inserting a key puts the inserted pair in the dictionary. -/
theorem mem_dictInsert_self (d : List (String × String)) (k v : String) :
    (k, v) ∈ dictInsert d k v := by
  unfold dictInsert
  by_cases h : d.any (fun p => p.1 == k)
  · simp only [h, if_true]
    obtain ⟨p, hp, hpk⟩ := List.any_eq_true.mp h
    refine List.mem_map.mpr ⟨p, hp, ?_⟩
    simp [hpk]
  · simp [h]

/-- Inserting a different key preserves membership of a pair. -/
theorem mem_dictInsert_ne (d : List (String × String)) (k v k2 v2 : String)
    (hne : k ≠ k2) (hm : (k, v) ∈ d) : (k, v) ∈ dictInsert d k2 v2 := by
  unfold dictInsert
  by_cases h : d.any (fun p => p.1 == k2)
  · simp only [h, if_true]
    refine List.mem_map.mpr ⟨(k, v), hm, ?_⟩
    simp [hne]
  · simp [h, hm]

/-- The chunk generator returns no chunks exactly when the first read is
already empty. -/
theorem generate_chunks_eq_nil (k : Nat) (c : List Nat) :
    generate_chunks_from_file k c = [] ↔ c.take k = [] := by
  constructor
  · intro h
    by_contra hne
    rw [generate_chunks_from_file] at h
    simp [hne] at h
  · intro h
    rw [generate_chunks_from_file]
    simp [h]

/-- Auxiliary: chunk lengths sum to the content length (fuel on the content
length). -/
theorem chunks_sum_aux (k : Nat) (hk : 0 < k) :
    ∀ n, ∀ c : List Nat, c.length ≤ n →
      ((generate_chunks_from_file k c).map List.length).sum = c.length := by
  intro n
  induction n with
  | zero =>
    intro c hc
    have hcnil : c = [] := List.length_eq_zero.mp (Nat.le_zero.mp hc)
    subst hcnil
    rw [generate_chunks_from_file]
    simp
  | succ n ih =>
    intro c hc
    rw [generate_chunks_from_file]
    by_cases h : c.take k = []
    · simp [h]
      rcases List.take_eq_nil_iff.mp h with h1 | h1
      · omega
      · simp [h1]
    · simp only [h, dite_eq_ite, if_false, List.map_cons, List.sum_cons]
      rw [ih (c.drop k) (by simp only [List.length_drop]; omega)]
      simp only [List.length_take, List.length_drop]
      omega

/-- The progress-bar increments of the chunk generator sum to the exact byte
length of the content. -/
theorem chunks_sum (k : Nat) (hk : 0 < k) (c : List Nat) :
    ((generate_chunks_from_file k c).map List.length).sum = c.length :=
  chunks_sum_aux k hk c.length c le_rfl

/-- Auxiliary: every chunk is at most the chunk size (fuel on the content
length). -/
theorem chunks_le_aux (k : Nat) :
    ∀ n, ∀ c : List Nat, c.length ≤ n →
      ∀ ch ∈ generate_chunks_from_file k c, ch.length ≤ k := by
  intro n
  induction n with
  | zero =>
    intro c hc ch hch
    have hcnil : c = [] := List.length_eq_zero.mp (Nat.le_zero.mp hc)
    subst hcnil
    rw [generate_chunks_from_file] at hch
    simp at hch
  | succ n ih =>
    intro c hc ch hch
    rw [generate_chunks_from_file] at hch
    by_cases h : c.take k = []
    · simp [h] at hch
    · simp only [h, dite_eq_ite, if_false, List.mem_cons] at hch
      rcases hch with rfl | hch
      · simp
      · by_cases hk : k = 0
        · subst hk
          simp [generate_chunks_from_file] at hch
        · exact ih (c.drop k) (by simp only [List.length_drop]; omega) ch hch

/-- Every chunk the generator yields is at most the chunk size. -/
theorem chunks_le (k : Nat) (c : List Nat) :
    ∀ ch ∈ generate_chunks_from_file k c, ch.length ≤ k :=
  chunks_le_aux k c.length c le_rfl

/-- Auxiliary: every chunk except possibly the last is exactly the chunk size
(fuel on the content length). -/
theorem chunks_full_aux (k : Nat) (hk : 0 < k) :
    ∀ n, ∀ c : List Nat, c.length ≤ n →
      ∀ ch ∈ (generate_chunks_from_file k c).dropLast, ch.length = k := by
  intro n
  induction n with
  | zero =>
    intro c hc ch hch
    have hcnil : c = [] := List.length_eq_zero.mp (Nat.le_zero.mp hc)
    subst hcnil
    rw [generate_chunks_from_file] at hch
    simp at hch
  | succ n ih =>
    intro c hc ch hch
    rw [generate_chunks_from_file] at hch
    by_cases h : c.take k = []
    · simp [h] at hch
    · simp only [h, dite_eq_ite, if_false] at hch
      by_cases h2 : generate_chunks_from_file k (c.drop k) = []
      · rw [h2] at hch
        simp at hch
      · rw [List.dropLast_cons_of_ne_nil h2] at hch
        rcases List.mem_cons.mp hch with rfl | hch
        · have hd : c.drop k ≠ [] := by
            intro hd
            apply h2
            rw [generate_chunks_eq_nil]
            simp [hd]
          have hlen : k ≤ c.length := by
            by_contra hlt
            exact hd (List.drop_eq_nil_iff.mpr (by omega))
          simp only [List.length_take]
          omega
        · exact ih (c.drop k) (by simp only [List.length_drop]; omega) ch hch

/-- Every chunk the generator yields, except possibly the final one, has
exactly the chunk size. -/
theorem chunks_full (k : Nat) (hk : 0 < k) (c : List Nat) :
    ∀ ch ∈ (generate_chunks_from_file k c).dropLast, ch.length = k :=
  chunks_full_aux k hk c.length c le_rfl

/-! Claim theorems. -/

/-- C1: for every remote path and every successful (status 200) listing
response, `_is_file_on_server_dir` classifies the path as a file (returns
`Except.ok false`) exactly when the listing holds one entry whose name equals
the base name of the path, and as a directory (returns `Except.ok true`) in
every other case — zero entries, several entries, or one mismatched entry —
with the zero-entry case yielding the directory answer rather than an error. -/
theorem classify_remote_file_iff (hd : List (String × String)) (resp : LsResponse)
    (p : String) (h200 : resp.status = 200) :
    ((is_file_on_server_dir hd p resp).1 = Except.ok false ↔
        ∃ e, resp.listing = [e] ∧ e.name = basename p) ∧
    ((is_file_on_server_dir hd p resp).1 = Except.ok true ↔
        ¬ ∃ e, resp.listing = [e] ∧ e.name = basename p) := by
  obtain ⟨st, txt, listing⟩ := resp
  simp only at h200
  subst h200
  have hEq : (is_file_on_server_dir hd p (LsResponse.mk 200 txt listing)).1 =
      Except.ok (!(listing.length == 1 &&
        (match listing.head? with
         | some e0 => basename p == e0.name
         | none => false))) := rfl
  rw [hEq]
  match listing with
  | [] => simp
  | [e0] =>
    by_cases he : e0.name = basename p
    · simp [he]
    · have hb : (basename p == e0.name) = false := by
        rw [beq_eq_false_iff_ne]
        exact fun hx => he hx.symm
      simp [hb, he]
  | e0 :: e1 :: t => simp

/-- C1 witness: a zero-entry listing with status 200 is classified as a
directory. -/
theorem classify_remote_file_iff_witness :
    (is_file_on_server_dir [] "a/b" (LsResponse.mk 200 "" [])).1 = Except.ok true :=
  (classify_remote_file_iff [] (LsResponse.mk 200 "" []) "a/b" rfl).2.mpr (by simp)

/-- C2: for every upload of a directory source that reaches the transfer phase
(the archiving step exited 0), the temporary archive file is absent from the
filesystem when `upload` returns or raises, whatever the preflight and body
statuses were — success, negotiation failure or transport failure. -/
theorem upload_dir_archive_removed (bh : List (String × String)) (fs : Fs)
    (w : UploadWorld) (src dst : String) (force : Bool)
    (hex : Fs.pathExists fs src = true) (hdir : Fs.isdir fs src = true)
    (htar : w.tarExit = 0) :
    Fs.pathExists (upload bh fs w src dst force).fs (archTempPath src) = false := by
  simp only [upload, hex, hdir, htar]
  norm_num
  exact pathExists_remove _ _

/-- C2 witness: a concrete directory upload with a failing preflight still
removes the temporary archive. -/
theorem upload_dir_archive_removed_witness :
    Fs.pathExists
      (upload (initHeaders "t") [("d", FsNode.dir)]
        (UploadWorld.mk 0 (some [7, 8]) 500 "denied" 200 "") "d" "x" false).fs
      (archTempPath "d") = false :=
  upload_dir_archive_removed (initHeaders "t") [("d", FsNode.dir)]
    (UploadWorld.mk 0 (some [7, 8]) 500 "denied" 200 "") "d" "x" false rfl rfl rfl

/-- C3: in `_do_upload`, when the preflight response carries a failure status
(400 or above) the call raises an UploadError holding that status and the
server text, the body-streaming request is never issued and the chunk
generator is never consumed; and when the preflight passed but the body phase
returns a non-200 status, the call raises an UploadError holding that status
and text. -/
theorem preflight_gates_body (bh : List (String × String)) (chunks : List (List Nat))
    (dst : String) (isdir : Bool) (sz : Nat) (force : Bool) (w : UploadWorld) :
    (400 ≤ w.preflightStatus →
      (do_upload bh chunks dst isdir sz force w).result
          = Except.error (SdkError.uploadError w.preflightStatus w.preflightText) ∧
      (∀ e ∈ (do_upload bh chunks dst isdir sz force w).trace, e.isBodySend = false) ∧
      (do_upload bh chunks dst isdir sz force w).pbar = []) ∧
    (w.preflightStatus < 400 → w.bodyStatus ≠ 200 →
      (do_upload bh chunks dst isdir sz force w).result
          = Except.error (SdkError.uploadError w.bodyStatus w.bodyText)) := by
  constructor
  · intro hpre
    refine ⟨?_, ?_, ?_⟩
    · simp [do_upload, hpre]
    · intro e he
      simp only [do_upload, hpre, if_true, List.mem_singleton] at he
      subst he
      rfl
    · simp [do_upload, hpre]
  · intro hpre hbody
    have hnp : ¬ 400 ≤ w.preflightStatus := Nat.not_le.mpr hpre
    simp [do_upload, hnp, hbody]

/-- C3 witness: a concrete preflight rejection raises the UploadError with the
status and text and issues no body request. -/
theorem preflight_gates_body_witness :
    (do_upload [] [[1]] "x" false 1 false
        (UploadWorld.mk 0 none 500 "boom" 200 "")).result
      = Except.error (SdkError.uploadError 500 "boom") ∧
    (∀ e ∈ (do_upload [] [[1]] "x" false 1 false
        (UploadWorld.mk 0 none 500 "boom" 200 "")).trace, e.isBodySend = false) :=
  ⟨((preflight_gates_body [] [[1]] "x" false 1 false
      (UploadWorld.mk 0 none 500 "boom" 200 "")).1 (by norm_num)).1,
   ((preflight_gates_body [] [[1]] "x" false 1 false
      (UploadWorld.mk 0 none 500 "boom" 200 "")).1 (by norm_num)).2.1⟩

/-- C5: uploading a source path that does not exist locally raises the
not-found error and issues no network request at all. -/
theorem upload_missing_source (bh : List (String × String)) (fs : Fs)
    (w : UploadWorld) (src dst : String) (force : Bool)
    (habs : Fs.pathExists fs src = false) :
    (upload bh fs w src dst force).result
        = Except.error (SdkError.notFoundError ("File " ++ src ++ " not found")) ∧
    (upload bh fs w src dst force).trace = [] := by
  simp [upload, habs]

/-- C5 witness: uploading from an empty filesystem raises not-found with an
empty trace. -/
theorem upload_missing_source_witness :
    (upload (initHeaders "t") [] (UploadWorld.mk 0 none 200 "" 200 "") "nope" "x"
        false).result
      = Except.error (SdkError.notFoundError "File nope not found") ∧
    (upload (initHeaders "t") [] (UploadWorld.mk 0 none 200 "" 200 "") "nope" "x"
        false).trace = [] :=
  upload_missing_source (initHeaders "t") [] (UploadWorld.mk 0 none 200 "" 200 "")
    "nope" "x" false rfl

/-- C10: uploading an existing regular file leaves the local filesystem
exactly as it was, whatever the network outcome: no temporary archive is
created, nothing is removed, and the source file's content is unchanged. -/
theorem upload_file_no_fs_mutation (bh : List (String × String)) (fs : Fs)
    (w : UploadWorld) (src dst : String) (force : Bool)
    (hex : Fs.pathExists fs src = true) (hfile : Fs.isdir fs src = false) :
    (upload bh fs w src dst force).fs = fs := by
  simp [upload, hex, hfile]

/-- C10 witness: a concrete regular-file upload leaves the filesystem
unchanged. -/
theorem upload_file_no_fs_mutation_witness :
    (upload (initHeaders "t") [("f", FsNode.file [1, 2, 3])]
        (UploadWorld.mk 0 none 200 "" 200 "") "f" "x" false).fs
      = [("f", FsNode.file [1, 2, 3])] :=
  upload_file_no_fs_mutation (initHeaders "t") [("f", FsNode.file [1, 2, 3])]
    (UploadWorld.mk 0 none 200 "" 200 "") "f" "x" false rfl rfl

/-- The X-File-Size header entry declaring the size is present in the upload
headers. -/
theorem xFileSize_mem_uploadHeaders (bh : List (String × String)) (dst : String)
    (sz : Nat) (isdir : Bool) :
    ("X-File-Size", toString sz) ∈ uploadHeaders bh dst sz isdir := by
  unfold uploadHeaders
  by_cases h : isdir
  · simp only [h, if_true]
    exact mem_dictInsert_ne _ _ _ _ _ (by decide) (mem_dictInsert_self _ _ _)
  · simp only [h, if_false]
    exact mem_dictInsert_self _ _ _

/-- Shape of the trace and progress increments of `_do_upload` when the
preflight passes. -/
theorem do_upload_trace_ok (bh : List (String × String)) (chunks : List (List Nat))
    (dst : String) (isdir : Bool) (sz : Nat) (force : Bool) (w : UploadWorld)
    (hnp : ¬ 400 ≤ w.preflightStatus) :
    (do_upload bh chunks dst isdir sz force w).trace =
      [NetEvent.preflight force
         (dictInsert (uploadHeaders bh dst sz isdir) "X-Expect" "100-continue"),
       NetEvent.bodySend force (uploadHeaders bh dst sz isdir) chunks] ∧
    (do_upload bh chunks dst isdir sz force w).pbar = chunks.map List.length := by
  simp [do_upload, hnp]

/-- Reduction of `upload` on an existing regular-file source. -/
theorem upload_file_eq (bh : List (String × String)) (fs : Fs) (w : UploadWorld)
    (src dst : String) (force : Bool)
    (hex : Fs.pathExists fs src = true) (hfile : Fs.isdir fs src = false) :
    upload bh fs w src dst force =
      { result := (do_upload bh
          (generate_chunks_from_file DOWNLOAD_CHUNK_SIZE (Fs.readFile fs src))
          dst false (Fs.getsize fs src) force w).result,
        fs := fs,
        trace := (do_upload bh
          (generate_chunks_from_file DOWNLOAD_CHUNK_SIZE (Fs.readFile fs src))
          dst false (Fs.getsize fs src) force w).trace,
        pbar := (do_upload bh
          (generate_chunks_from_file DOWNLOAD_CHUNK_SIZE (Fs.readFile fs src))
          dst false (Fs.getsize fs src) force w).pbar } := by
  simp [upload, hex, hfile]

/-- C8: uploading an existing regular file whose preflight passes declares
X-File-Size equal to the exact byte length of the file content in the headers
of every request of the call, streams chunks of at most 64 KiB with every
chunk but possibly the last exactly 64 KiB, and drives the progress sink with
one increment per transmitted chunk, each equal to that chunk's length,
summing exactly to the file length. -/
theorem upload_file_chunk_accounting (bh : List (String × String)) (fs : Fs)
    (w : UploadWorld) (src dst : String) (force : Bool)
    (hex : Fs.pathExists fs src = true) (hfile : Fs.isdir fs src = false)
    (hpre : w.preflightStatus < 400) :
    (upload bh fs w src dst force).pbar.sum = (Fs.readFile fs src).length ∧
    (∀ c ∈ (upload bh fs w src dst force).pbar, c ≤ DOWNLOAD_CHUNK_SIZE) ∧
    (∀ c ∈ (upload bh fs w src dst force).pbar.dropLast, c = DOWNLOAD_CHUNK_SIZE) ∧
    (∀ e ∈ (upload bh fs w src dst force).trace,
        ("X-File-Size", toString (Fs.readFile fs src).length) ∈ NetEvent.headersOf e) ∧
    (∀ fl hs cs, NetEvent.bodySend fl hs cs ∈ (upload bh fs w src dst force).trace →
        (upload bh fs w src dst force).pbar = cs.map List.length) := by
  have hnp : ¬ 400 ≤ w.preflightStatus := Nat.not_le.mpr hpre
  have hcs : 0 < DOWNLOAD_CHUNK_SIZE := by norm_num [DOWNLOAD_CHUNK_SIZE]
  rw [upload_file_eq bh fs w src dst force hex hfile]
  obtain ⟨htr, hpb⟩ := do_upload_trace_ok bh
    (generate_chunks_from_file DOWNLOAD_CHUNK_SIZE (Fs.readFile fs src))
    dst false (Fs.getsize fs src) force w hnp
  simp only [htr, hpb]
  refine ⟨?_, ?_, ?_, ?_, ?_⟩
  · exact chunks_sum DOWNLOAD_CHUNK_SIZE hcs (Fs.readFile fs src)
  · intro c hc
    obtain ⟨ch, hch, rfl⟩ := List.mem_map.mp hc
    exact chunks_le DOWNLOAD_CHUNK_SIZE (Fs.readFile fs src) ch hch
  · intro c hc
    rw [← List.map_dropLast] at hc
    obtain ⟨ch, hch, rfl⟩ := List.mem_map.mp hc
    exact chunks_full DOWNLOAD_CHUNK_SIZE hcs (Fs.readFile fs src) ch hch
  · intro e he
    rcases List.mem_cons.mp he with rfl | he2
    · exact mem_dictInsert_ne _ _ _ _ _ (by decide)
        (xFileSize_mem_uploadHeaders bh dst (Fs.getsize fs src) false)
    · rcases List.mem_cons.mp he2 with rfl | he3
      · exact xFileSize_mem_uploadHeaders bh dst (Fs.getsize fs src) false
      · simp at he3
  · intro fl hs cs hmem
    rcases List.mem_cons.mp hmem with hpre1 | hmem2
    · exact absurd hpre1 (by simp)
    · rcases List.mem_cons.mp hmem2 with hbody | hmem3
      · injection hbody with h1 h2 h3
        subst h3
        rfl
      · simp at hmem3

/-- C8 witness: a three-byte file streams as one chunk of length three, and
every request of the call declares X-File-Size: 3. -/
theorem upload_file_chunk_accounting_witness :
    (upload (initHeaders "t") [("f", FsNode.file [1, 2, 3])]
        (UploadWorld.mk 0 none 200 "" 200 "") "f" "x" false).pbar.sum
      = (Fs.readFile [("f", FsNode.file [1, 2, 3])] "f").length ∧
    (∀ e ∈ (upload (initHeaders "t") [("f", FsNode.file [1, 2, 3])]
        (UploadWorld.mk 0 none 200 "" 200 "") "f" "x" false).trace,
      ("X-File-Size", toString (Fs.readFile [("f", FsNode.file [1, 2, 3])] "f").length)
        ∈ NetEvent.headersOf e) :=
  ⟨(upload_file_chunk_accounting (initHeaders "t") [("f", FsNode.file [1, 2, 3])]
      (UploadWorld.mk 0 none 200 "" 200 "") "f" "x" false rfl rfl
      (by norm_num)).1,
   (upload_file_chunk_accounting (initHeaders "t") [("f", FsNode.file [1, 2, 3])]
      (UploadWorld.mk 0 none 200 "" 200 "") "f" "x" false rfl rfl
      (by norm_num)).2.2.2.1⟩

/-- C4, divergence exhibit: uploading a directory whose archiving step exits
non-zero after writing a partial archive raises the ArchiveError and issues no
network request, but the partially written temporary archive file persists on
the filesystem — the except branch of `upload` re-raises without deleting what
`tar` wrote. -/
theorem upload_dir_tar_fail_partial_persists :
    (upload (initHeaders "t") [("d", FsNode.dir)]
        (UploadWorld.mk 1 (some [7]) 200 "" 200 "") "d" "dst/d" false).result
      = Except.error (SdkError.archiveError "Failed to archive folder") ∧
    (upload (initHeaders "t") [("d", FsNode.dir)]
        (UploadWorld.mk 1 (some [7]) 200 "" 200 "") "d" "dst/d" false).trace = [] ∧
    Fs.pathExists
      (upload (initHeaders "t") [("d", FsNode.dir)]
        (UploadWorld.mk 1 (some [7]) 200 "" 200 "") "d" "dst/d" false).fs
      (archTempPath "d") = true :=
  ⟨rfl, rfl, by decide⟩

/-- C6: a download whose classification listing returns status 404 raises the
not-found error and leaves the local filesystem untouched — in particular no
destination directory is created, since classification strictly precedes the
makedirs step. -/
theorem download_404_no_mkdirs (hd : List (String × String)) (fs : Fs)
    (w : DownloadWorld) (src dst : String) (h404 : w.ls.status = 404) :
    (download hd fs w src dst).result
        = Except.error (SdkError.notFoundError
            ("File \"" ++ src ++ "\" not found on server")) ∧
    (download hd fs w src dst).fs = fs := by
  obtain ⟨⟨st, txt, listing⟩, dlS, dlT, dlL, dlB, tE, ex⟩ := w
  simp only at h404
  subst h404
  simp [download, is_file_on_server_dir, do_list_files]

/-- C6 witness: a concrete 404 listing leaves the empty filesystem empty and
raises not-found. -/
theorem download_404_no_mkdirs_witness :
    (download (initHeaders "t") []
        (DownloadWorld.mk (LsResponse.mk 404 "" []) 200 "" 0 [] 0 []) "d"
        "out/d").result
      = Except.error (SdkError.notFoundError "File \"d\" not found on server") ∧
    (download (initHeaders "t") []
        (DownloadWorld.mk (LsResponse.mk 404 "" []) 200 "" 0 [] 0 []) "d"
        "out/d").fs = [] :=
  download_404_no_mkdirs (initHeaders "t") []
    (DownloadWorld.mk (LsResponse.mk 404 "" []) 200 "" 0 [] 0 []) "d" "out/d" rfl

/-- C7: downloading a remote path classified as a directory, with the body
stream succeeding, raises the ArchiveError when the unpacking step exits
non-zero, and in every case — unpack success or failure — the temporary
archive file that received the streamed bytes is absent afterwards, the
removal running in a `finally`. -/
theorem download_dir_unpack_cleanup (hd : List (String × String)) (fs : Fs)
    (w : DownloadWorld) (src dst : String)
    (hcls : (is_file_on_server_dir hd src w.ls).1 = Except.ok true)
    (hdl : w.dlStatus = 200) :
    (w.tarExit ≠ 0 →
      (download hd fs w src dst).result
          = Except.error (SdkError.archiveError "Failed to unzip folder")) ∧
    Fs.pathExists (download hd fs w src dst).fs (archTempPath dst) = false := by
  simp only [download, hcls]
  simp only [do_download, hdl]
  norm_num
  constructor
  · intro ht
    simp [ht]
  · exact pathExists_remove _ _

/-- C7 witness: a concrete directory download whose unpack step exits 1 raises
the ArchiveError and leaves no temporary archive behind. -/
theorem download_dir_unpack_cleanup_witness :
    (download (initHeaders "t") []
        (DownloadWorld.mk (LsResponse.mk 200 "" []) 200 "" 0 [5] 1 []) "d"
        "out/d").result
      = Except.error (SdkError.archiveError "Failed to unzip folder") ∧
    Fs.pathExists
      (download (initHeaders "t") []
        (DownloadWorld.mk (LsResponse.mk 200 "" []) 200 "" 0 [5] 1 []) "d"
        "out/d").fs (archTempPath "out/d") = false :=
  ⟨(download_dir_unpack_cleanup (initHeaders "t") []
      (DownloadWorld.mk (LsResponse.mk 200 "" []) 200 "" 0 [5] 1 []) "d" "out/d"
      rfl rfl).1 (by norm_num),
   (download_dir_unpack_cleanup (initHeaders "t") []
      (DownloadWorld.mk (LsResponse.mk 200 "" []) 200 "" 0 [5] 1 []) "d" "out/d"
      rfl rfl).2⟩

/-- C9, divergence exhibit: downloading a remote directory mutates the
client's stored header dictionary — `headers = self._headers` in
`_do_download` binds the stored dict itself, so the X-Is-Archive entry it adds
persists after the call, and later independent requests would carry it. -/
theorem download_dir_mutates_stored_headers :
    (download (initHeaders "tok") []
        (DownloadWorld.mk (LsResponse.mk 200 "" []) 200 "" 0 [5, 6] 0 []) "d"
        "out/d").storedHeaders ≠ initHeaders "tok" ∧
    ("X-Is-Archive", "true") ∈
      (download (initHeaders "tok") []
          (DownloadWorld.mk (LsResponse.mk 200 "" []) 200 "" 0 [5, 6] 0 []) "d"
          "out/d").storedHeaders := by
  constructor
  · decide
  · decide

end YopSdk
